import Mathlib

/-!
# Verification of the CodeIndexer indexing engine

A shallow embedding of the `CodeIndexer` class (src: `CodeIndexer` in the
repository, the version with temporal fields and the advanced exclusion
system).  External collaborators — the file system, the Ollama embedding
client, the Qdrant vector store, the exclusion matcher, `crypto` hashes,
`path` helpers and wall-clock time — are modelled as an explicit
environment of pure functions; the engine's own logic (branching,
retry loops, state updates, counters) is translated statement by
statement from the source.  JavaScript's cooperative single-threaded
concurrency is modelled by a small-step transition relation for the
admission gate and an admission function for the per-path in-flight map;
the per-call body is modelled as a sequential state transformer.
-/

namespace CodeIndexer

/-- Association-list lookup by string key, first match wins (models a
JS object / `Map` read). -/
def assocGet {α : Type} : List (String × α) → String → Option α
  | [], _ => none
  | (k', v) :: rest, k => if k' = k then some v else assocGet rest k

/-- Association-list overwrite-or-insert (models JS object assignment
`obj[k] = v` / `Map.set`). -/
def assocSet {α : Type} : List (String × α) → String → α → List (String × α)
  | [], k, v => [(k, v)]
  | (k', v') :: rest, k, v =>
    if k' = k then (k, v) :: rest else (k', v') :: assocSet rest k v

/-- Association-list deletion (models JS `delete obj[k]` / `Map.delete`). -/
def assocDel {α : Type} (m : List (String × α)) (k : String) : List (String × α) :=
  m.filter (fun e => e.1 != k)

/-- Per-path entry of the persisted incremental state
(`IncrementalState[filePath]` in the source, with temporal fields). -/
structure FileRecord where
  checksum : String
  lastModified : String
  indexed : String
  createdAt : String
  expiresAt : Option String
deriving Repr, DecidableEq

/-- Payload upserted with each vector (`FileMetadata` in the source). -/
structure FileMetadata where
  filePath : String
  fileSize : Nat
  lastModified : String
  fileType : String
  checksum : String
  indexed : String
  createdAt : String
  expiresAt : Option String
deriving Repr, DecidableEq

/-- A point stored in the vector store: the embedding vector plus its
payload (the `points` element of the Qdrant upsert call). -/
structure VectorPoint where
  vector : List Int
  payload : FileMetadata
deriving Repr, DecidableEq

/-- Aggregate counters (`IndexStats` in the source). -/
structure IndexStats where
  totalFiles : Nat
  indexedFiles : Nat
  failedFiles : Nat
  totalSize : Nat
  indexedSize : Nat
  lastIndexed : String
deriving Repr, DecidableEq

/-- Engine-owned mutable state: the incremental FileRecord map, the
stats, the concurrency counter, and (modelled explicitly so that upserts
and deletes are observable) the vector-store contents keyed by the
deterministic file identifier. -/
structure IndexerState where
  incrementalState : List (String × FileRecord)
  stats : IndexStats
  currentConcurrency : Nat
  store : List (String × VectorPoint)
deriving Repr, DecidableEq

/-- A raw search candidate as returned by the vector store, in similarity
order; the payload fields the temporal filter inspects are kept, `cid`
stands for the rest of the hit.  `none` models a payload field that is
absent or not a string. -/
structure Candidate where
  cid : String
  createdAt : Option String
  expiresAt : Option String
deriving Repr, DecidableEq

/-- The configuration fields the engine reads (`config.*` in the source). -/
structure IndexerConfig where
  incrementalEnabled : Bool
  validationEnabled : Bool
  qdrantRetries : Nat
  ollamaRetries : Nat
  dimensions : Nat
  maxConcurrency : Nat
  batchSize : Nat
  ttlHours : Option Nat
deriving Repr, DecidableEq

/-- `this.freshnessWindowMs = (config.indexing.ttlHours ?? 24) * 60 * 60 * 1000`. -/
def freshnessWindowMs (cfg : IndexerConfig) : Int :=
  ((cfg.ttlHours.getD 24 : Nat) : Int) * 60 * 60 * 1000

/-- The external world for one engine call: file system, exclusion
matcher, hashes, clock, and the per-attempt outcomes of the remote
embedding and upsert calls.  `embedAttempt text n` is the outcome of the
n-th Ollama embeddings call for `text`; `upsertAttempt path n` is `none`
on success and `some message` on failure of the n-th Qdrant upsert for
`path`.  `rawResults` is the store's similarity-ordered response to the
current search query. -/
structure Env where
  fileExists : String → Bool
  excluded : String → Bool
  statOk : String → Bool
  mtimeIso : String → String
  contentOf : String → String
  sizeOf : String → Nat
  extname : String → String
  sha256hex : String → String
  md5hex : String → String
  nowIso : String
  expiresAtIso : String
  nowMs : Int
  parseDate : String → Option Int
  embedAttempt : String → Nat → Except String (List Int)
  upsertAttempt : String → Nat → Option String
  rawResults : List Candidate
  collectionExists : Bool

/-- Number of external embedding calls and upsert calls a run performed. -/
structure CallCounts where
  embedCalls : Nat
  upsertCalls : Nat
deriving Repr, DecidableEq

/-- Value of one hexadecimal character, `0` for anything else (JS
`parseInt` of a non-hex single character yields `NaN`, and `NaN & 3 | 8`
coerces `NaN` to `0`, so the `0` default reproduces the JS result of the
bit expression below). -/
def hexCharVal (c : Char) : Nat :=
  if '0' ≤ c ∧ c ≤ '9' then c.toNat - '0'.toNat
  else if 'a' ≤ c ∧ c ≤ 'f' then c.toNat - 'a'.toNat + 10
  else if 'A' ≤ c ∧ c ≤ 'F' then c.toNat - 'A'.toNat + 10
  else 0

/-- `parseInt(s, 16)` for a one-character slice, with the `NaN`-as-`0`
convention explained at `hexCharVal`. -/
def parseHex1 (s : String) : Nat :=
  match s.data with
  | [c] => hexCharVal c
  | _ => 0

/-- One lowercase hex digit, as produced by `Number.prototype.toString(16)`
for a value below 16. -/
def hexDigit (n : Nat) : String :=
  if n < 10 then String.singleton (Char.ofNat ('0'.toNat + n))
  else String.singleton (Char.ofNat ('a'.toNat + (n - 10)))

/-- JS `s.substring(a, b)` for `a ≤ b` (both clamp past the end). -/
def jsSubstring (s : String) (a b : Nat) : String :=
  (s.drop a).take (b - a)

/-- `generateFileId`: deterministic UUID derived from the MD5 hex digest
of the file path alone — translated from the source's substring/bit
manipulation; the MD5 itself is the external `crypto` library, supplied
by the environment as a pure function. -/
def generateFileId (md5hex : String → String) (filePath : String) : String :=
  let hash := md5hex filePath
  String.intercalate "-" [
    jsSubstring hash 0 8,
    jsSubstring hash 8 12,
    "4" ++ jsSubstring hash 13 16,
    hexDigit ((parseHex1 (jsSubstring hash 16 17)) &&& 0x3 ||| 0x8) ++
      jsSubstring hash 17 20,
    jsSubstring hash 20 32]

/-- Dimension reconciliation inside `generateEmbedding`: on a length
mismatch a longer vector is sliced to the configured dimensionality and a
shorter one is extended with zeros. -/
def reconcileEmbedding (dims : Nat) (v : List Int) : List Int :=
  if v.length = dims then v
  else if v.length > dims then v.take dims
  else v ++ List.replicate (dims - v.length) 0

/-- The retry loop of `generateEmbedding`: `fuel` counts the remaining
attempts (initially `maxRetries`), `attempt` the 1-based attempt number,
`lastErr` the last caught error message.  An empty embedding response is
thrown and caught inside the loop, so it consumes an attempt like a
failed call.  Returns the result together with the number of external
embedding calls made. -/
def embedLoop (env : Env) (text : String) (dims maxRetries : Nat) :
    Nat → Nat → Option String → Except String (List Int) × Nat
  | 0, _, lastErr =>
    (.error ("Failed to generate embedding after " ++ toString maxRetries ++
      " attempts: " ++ lastErr.getD "null"), 0)
  | fuel + 1, attempt, _lastErr =>
    match env.embedAttempt text attempt with
    | .ok v =>
      if v.length = 0 then
        let r := embedLoop env text dims maxRetries fuel (attempt + 1)
          (some "Empty embedding response")
        (r.1, r.2 + 1)
      else (.ok (reconcileEmbedding dims v), 1)
    | .error msg =>
      let r := embedLoop env text dims maxRetries fuel (attempt + 1) (some msg)
      (r.1, r.2 + 1)

/-- `generateEmbedding(text)`: `maxRetries = config.ollama.retries || 2`
(JS `||`: a zero/absent retry count falls back to 2). -/
def generateEmbedding (cfg : IndexerConfig) (env : Env) (text : String) :
    Except String (List Int) × Nat :=
  let maxRetries := if cfg.ollamaRetries = 0 then 2 else cfg.ollamaRetries
  embedLoop env text cfg.dimensions maxRetries maxRetries 1 none

/-- Outcome of the Qdrant upsert retry loop of `doIndexFile`.
`lastError` is the value of the source's `lastError` variable after the
loop — note the source never resets it to `null` when a later attempt
succeeds.  `succeeded` records whether some attempt's upsert went
through (the loop `break`s on the first success), `calls` the number of
upsert calls made. -/
structure UpsertOutcome where
  lastError : Option String
  succeeded : Bool
  calls : Nat
deriving Repr, DecidableEq

/-- The upsert retry loop, translated from the source: attempts run
1-based up to `maxRetries` (the fuel); a success breaks out leaving
`lastErr` as it is, a failure overwrites `lastErr` and continues. -/
def upsertLoop (env : Env) (p : String) :
    Nat → Nat → Option String → UpsertOutcome
  | 0, _, lastErr => ⟨lastErr, false, 0⟩
  | fuel + 1, attempt, lastErr =>
    match env.upsertAttempt p attempt with
    | none => ⟨lastErr, true, 1⟩
    | some msg =>
      let o := upsertLoop env p fuel (attempt + 1) (some msg)
      ⟨o.lastError, o.succeeded, o.calls + 1⟩

/-- `needsIndexing(filePath)`: always true when incremental mode is off;
a stat failure defaults to true; otherwise true iff the path has no
record or its recorded `lastModified` differs from the current mtime. -/
def needsIndexing (cfg : IndexerConfig) (env : Env) (s : IndexerState)
    (p : String) : Bool :=
  if ¬cfg.incrementalEnabled then true
  else if ¬env.statOk p then true
  else
    match assocGet s.incrementalState p with
    | none => true
    | some r => if r.lastModified = env.mtimeIso p then false else true

/-- `path.extname(filePath).substring(1) || 'unknown'`. -/
def fileTypeOf (env : Env) (p : String) : String :=
  let e := (env.extname p).drop 1
  if e = "" then "unknown" else e

/-- The metadata payload `doIndexFile` builds for a file: stat fields,
extension, checksum, and the temporal fields (`createdAt = indexed = now`,
`expiresAt = now + ttl`, both supplied by the clock in the environment). -/
def buildMetadata (env : Env) (p checksum : String) : FileMetadata :=
  { filePath := p
    fileSize := env.sizeOf p
    lastModified := env.mtimeIso p
    fileType := fileTypeOf env p
    checksum := checksum
    indexed := env.nowIso
    createdAt := env.nowIso
    expiresAt := some env.expiresAtIso }

/-- The upsert-and-commit phase of `doIndexFile`, entered with the
embedding in hand: deterministic id, Qdrant retry loop
(`maxRetries = config.qdrant.retries || 3`), then the source's
`if (lastError) throw` check — the FileRecord write and the success
counters run only when `lastError` stayed `null`, which (since the
source never clears it after a failed attempt) requires the FIRST
attempt to have succeeded. -/
def doIndexFileUpsertPhase (cfg : IndexerConfig) (env : Env)
    (s : IndexerState) (p checksum : String) (embedding : List Int)
    (ec : Nat) : Except String Unit × IndexerState × CallCounts :=
  let metadata := buildMetadata env p checksum
  let fileId := generateFileId env.md5hex p
  let maxRetries := if cfg.qdrantRetries = 0 then 3 else cfg.qdrantRetries
  let o := upsertLoop env p maxRetries 1 none
  let store' := if o.succeeded
    then assocSet s.store fileId ⟨embedding, metadata⟩
    else s.store
  match o.lastError with
  | some msg =>
    (.error ("Failed to persist to Qdrant after " ++ toString maxRetries ++
       " attempts: " ++ msg),
     { s with store := store' }, ⟨ec, o.calls⟩)
  | none =>
    let newRecord : FileRecord :=
      { checksum := checksum
        lastModified := metadata.lastModified
        indexed := metadata.indexed
        createdAt := metadata.createdAt
        expiresAt := metadata.expiresAt }
    (.ok (),
     { s with
        store := store'
        incrementalState := assocSet s.incrementalState p newRecord
        stats := { s.stats with
          indexedFiles := s.stats.indexedFiles + 1
          indexedSize := s.stats.indexedSize + env.sizeOf p
          lastIndexed := env.nowIso } },
     ⟨ec, o.calls⟩)

/-- The body of `doIndexFile` after slot admission (the source's `try`
block): existence check, exclusion check, incremental check, read +
checksum, embedding, then the upsert-and-commit phase.  Returns the raw
result (before the catch clause wraps it), the state after the block,
and the external-call counts. -/
def doIndexFileBody (cfg : IndexerConfig) (env : Env) (s : IndexerState)
    (p : String) : Except String Unit × IndexerState × CallCounts :=
  if ¬env.fileExists p then
    (.error ("File does not exist: " ++ p), s, ⟨0, 0⟩)
  else if env.excluded p then
    (.ok (), s, ⟨0, 0⟩)
  else if ¬needsIndexing cfg env s p then
    (.ok (), s, ⟨0, 0⟩)
  else
    let checksum := env.sha256hex (env.contentOf p)
    match generateEmbedding cfg env (env.contentOf p) with
    | (.error msg, ec) => (.error msg, s, ⟨ec, 0⟩)
    | (.ok embedding, ec) =>
      doIndexFileUpsertPhase cfg env s p checksum embedding ec

/-- The catch and finally clauses of `doIndexFile`: on an error the
catch clause increments `failedFiles` and re-throws annotated with the
path; the finally clause runs `releaseSlot`
(`currentConcurrency = max(currentConcurrency - 1, 0)`, which Nat
subtraction models exactly) on every exit path. -/
def doIndexFileWrap (p : String)
    (out : Except String Unit × IndexerState × CallCounts) :
    Except String Unit × IndexerState × CallCounts :=
  match out with
  | (.ok _, s2, cc) =>
    (.ok (), { s2 with currentConcurrency := s2.currentConcurrency - 1 }, cc)
  | (.error msg, s2, cc) =>
    (.error ("Failed to index file " ++ p ++ ": " ++ msg),
     { s2 with
        stats := { s2.stats with failedFiles := s2.stats.failedFiles + 1 }
        currentConcurrency := s2.currentConcurrency - 1 },
     cc)

/-- `doIndexFile(filePath)`: slot acquisition (`waitForSlot` ends with
`currentConcurrency++`), the try block, then the catch/finally wrapper. -/
def doIndexFile (cfg : IndexerConfig) (env : Env) (s : IndexerState)
    (p : String) : Except String Unit × IndexerState × CallCounts :=
  doIndexFileWrap p
    (doIndexFileBody cfg env
      { s with currentConcurrency := s.currentConcurrency + 1 } p)

/-- Total size pre-scan of `indexFiles`: paths whose stat fails are
skipped with a warning. -/
def batchTotalSize (env : Env) : List String → Nat
  | [] => 0
  | p :: rest =>
    (if env.statOk p then env.sizeOf p else 0) + batchTotalSize env rest

/-- The per-file loop of `indexFiles`: each file is indexed via
`indexFile`/`doIndexFile`, a success pushes the path onto `successful`, a
caught failure pushes it onto `failed`; a single file's failure never
escapes the loop.  (The source submits each fixed-size batch
concurrently; the admission gate and the in-flight map are modelled
separately — see `SlotStep` and `indexFileAdmit` — so outcomes here are
folded sequentially in input order, which chunking does not change.) -/
def indexFilesGo (cfg : IndexerConfig) (env : Env) :
    List String → IndexerState → List String × List String × IndexerState
  | [], s => ([], [], s)
  | p :: rest, s =>
    let out := doIndexFile cfg env s p
    let r := indexFilesGo cfg env rest out.2.1
    match out.1 with
    | .ok _ => (p :: r.1, r.2.1, r.2.2)
    | .error _ => (r.1, p :: r.2.1, r.2.2)

/-- `indexFiles(filePaths)`: resets the batch-scoped stats (total files,
indexed/failed counters, sizes), then processes every file, returning
the successful and failed path lists and the final state. -/
def indexFiles (cfg : IndexerConfig) (env : Env) (paths : List String)
    (s : IndexerState) : List String × List String × IndexerState :=
  let s0 := { s with stats :=
    { s.stats with
        totalFiles := paths.length
        indexedFiles := 0
        failedFiles := 0
        totalSize := batchTotalSize env paths
        indexedSize := 0 } }
  indexFilesGo cfg env paths s0

/-- `deleteFileFromIndex(filePath)` (success path): delete the point at
the deterministic id from the store and remove the path's FileRecord. -/
def deleteFileFromIndex (env : Env) (s : IndexerState) (p : String) :
    IndexerState :=
  let fileId := generateFileId env.md5hex p
  { s with
      store := assocDel s.store fileId
      incrementalState := assocDel s.incrementalState p }

/-- The temporal filter predicate of `search`: a candidate is retained
iff its payload `createdAt` is a parseable date, it is not expired
(`expiresAt` parseable and strictly in the past excludes it), and its
age since creation is within the freshness window. -/
def temporalFresh (parseDate : String → Option Int) (nowMs windowMs : Int)
    (c : Candidate) : Bool :=
  match c.createdAt.bind parseDate with
  | none => false
  | some created =>
    let expired := match c.expiresAt.bind parseDate with
      | some e => decide (e < nowMs)
      | none => false
    if expired then false
    else decide (nowMs - created ≤ windowMs)

/-- `validateIndexState()` reduced to the collection-existence check it
performs against the store. -/
def validateIndexState (env : Env) : Except String Unit :=
  if env.collectionExists then .ok ()
  else .error "Index validation failed: collection does not exist"

/-- `search(query, limit)`: optional validation, query embedding through
the same `generateEmbedding` path, an over-fetched similarity query
(`env.rawResults` is the store's similarity-ordered response), the
temporal filter, and the first `limit` survivors. -/
def search (cfg : IndexerConfig) (env : Env) (query : String) (limit : Nat) :
    Except String (List Candidate) :=
  match (if cfg.validationEnabled then validateIndexState env
         else Except.ok ()) with
  | .error msg => .error ("Search failed: " ++ msg)
  | .ok _ =>
    match (generateEmbedding cfg env query).1 with
    | .error msg => .error ("Search failed: " ++ msg)
    | .ok _ =>
      .ok ((env.rawResults.filter
        (temporalFresh env.parseDate env.nowMs (freshnessWindowMs cfg))).take
          limit)

/-- One transition of the admission-gate counter under JavaScript's
cooperative scheduler: `waitForSlot` only increments after observing
`currentConcurrency < maxConcurrency` with no suspension point between
the check and the increment, and `releaseSlot` floors at zero. -/
inductive SlotStep (maxC : Nat) : Nat → Nat → Prop
  | acquire {c : Nat} : c < maxC → SlotStep maxC c (c + 1)
  | release {c : Nat} : SlotStep maxC c (c - 1)

/-- Counter values reachable from the initial `currentConcurrency = 0`
under any interleaving of acquisitions and releases. -/
inductive SlotReachable (maxC : Nat) : Nat → Prop
  | init : SlotReachable maxC 0
  | step {a b : Nat} : SlotReachable maxC a → SlotStep maxC a b →
      SlotReachable maxC b

/-- The admission step of `indexFile(filePath)` against the in-flight
map `indexingQueue : path → operation`: if an operation for the path is
already in flight the caller receives that operation and nothing new is
started (`false`); otherwise a fresh operation `nextOp` is registered
and started (`true`). -/
def indexFileAdmit (queue : List (String × Nat)) (nextOp : Nat)
    (p : String) : Nat × List (String × Nat) × Bool :=
  match assocGet queue p with
  | some op => (op, queue, false)
  | none => (nextOp, (p, nextOp) :: queue, true)

/-! ## Concrete fixtures for witnesses and counterexamples -/

/-- A small concrete configuration: incremental mode on, the source's
default retry ceilings (`qdrant.retries = 3`, `ollama.retries = 2`),
2-dimensional embeddings, TTL 24 h. -/
def testCfg : IndexerConfig :=
  { incrementalEnabled := true
    validationEnabled := false
    qdrantRetries := 3
    ollamaRetries := 2
    dimensions := 2
    maxConcurrency := 2
    batchSize := 10
    ttlHours := some 24 }

/-- A benign concrete environment: every file exists, nothing is
excluded, embedding and upsert succeed on the first attempt. -/
def testEnv : Env :=
  { fileExists := fun _ => true
    excluded := fun _ => false
    statOk := fun _ => true
    mtimeIso := fun _ => "2026-01-01T00:00:00.000Z"
    contentOf := fun p => "content of " ++ p
    sizeOf := fun _ => 7
    extname := fun _ => ".ts"
    sha256hex := fun c => "sha-" ++ c
    md5hex := fun _ => "0123456789abcdef0123456789abcdef"
    nowIso := "2026-01-02T00:00:00.000Z"
    expiresAtIso := "2026-01-03T00:00:00.000Z"
    nowMs := 1000000
    parseDate := fun _ => none
    embedAttempt := fun _ _ => .ok [1, 2]
    upsertAttempt := fun _ _ => none
    rawResults := []
    collectionExists := true }

/-- The all-zero initial stats. -/
def emptyStats : IndexStats :=
  { totalFiles := 0, indexedFiles := 0, failedFiles := 0
    totalSize := 0, indexedSize := 0, lastIndexed := "" }

/-- Initial engine state: empty record map, zero stats, no in-flight
work, empty store. -/
def emptyState : IndexerState :=
  { incrementalState := [], stats := emptyStats
    currentConcurrency := 0, store := [] }

/-- Environment whose first Qdrant upsert attempt fails transiently and
whose second attempt succeeds — the input exposing the `lastError`
handling of the upsert retry loop. -/
def c1Env : Env :=
  { testEnv with upsertAttempt := fun _ n =>
      if n = 1 then some "transient failure" else none }

/-- A candidate whose payload is fresh: parseable `createdAt`, future
`expiresAt`, age within the freshness window (with `c2Env`). -/
def c2Fresh : Candidate :=
  { cid := "fresh", createdAt := some "t1000", expiresAt := some "t9000" }

/-- A candidate whose payload `expiresAt` is in the past (with `c2Env`). -/
def c2Expired : Candidate :=
  { cid := "expired", createdAt := some "t1000", expiresAt := some "t100" }

/-- A candidate whose payload `createdAt` does not parse (with `c2Env`). -/
def c2Unparseable : Candidate :=
  { cid := "unparseable", createdAt := some "garbage", expiresAt := some "t9000" }

/-- Search environment: clock at 2000 ms, a toy date parser mapping
"tN" to N, and a raw similarity response holding one fresh, one
expired and one unparseable candidate. -/
def c2Env : Env :=
  { testEnv with
      nowMs := 2000
      parseDate := fun str =>
        if str = "t1000" then some 1000
        else if str = "t9000" then some 9000
        else if str = "t100" then some 100
        else none
      rawResults := [c2Fresh, c2Expired, c2Unparseable] }

/-- A FileRecord whose `lastModified` equals `testEnv`'s current mtime. -/
def c3Record : FileRecord :=
  { checksum := "sha-old"
    lastModified := "2026-01-01T00:00:00.000Z"
    indexed := "2025-12-31T00:00:00.000Z"
    createdAt := "2025-12-31T00:00:00.000Z"
    expiresAt := some "2026-01-01T12:00:00.000Z" }

/-- State in which "a.ts" already has a FileRecord matching its mtime. -/
def c3State : IndexerState :=
  { emptyState with incrementalState := [("a.ts", c3Record)] }

/-- Environment in which every path is excluded by the matcher. -/
def c4Env : Env :=
  { testEnv with excluded := fun _ => true }

/-- Environment in which the embedding of path "b.ts"'s content fails on
every attempt (the C5 scenario's failing middle file). -/
def c5Env : Env :=
  { testEnv with embedAttempt := fun text _ =>
      if text = "content of b.ts" then Except.error "model unavailable"
      else Except.ok [1, 2] }

/-- The vector point assumed present for "a.ts" before deletion. -/
def c8Point : VectorPoint :=
  { vector := [3, 4]
    payload := buildMetadata testEnv "a.ts" "sha-old" }

/-- State whose store already holds a point for "a.ts" under its
deterministic identifier, and whose record map knows the path. -/
def c8State : IndexerState :=
  { emptyState with
      store := [(generateFileId testEnv.md5hex "a.ts", c8Point)]
      incrementalState := [("a.ts", c3Record)] }

/-- Environment whose embedding capability returns a 3-dimensional
vector against a configured dimensionality of 2. -/
def c9Env : Env :=
  { testEnv with embedAttempt := fun _ _ => .ok [5, 6, 7] }

/-- Environment in which the file is missing, so indexing throws. -/
def c10Env : Env :=
  { testEnv with fileExists := fun _ => false }

/-! ## Helper lemmas -/

theorem assocGet_assocSet_self {α : Type} (m : List (String × α))
    (k : String) (v : α) : assocGet (assocSet m k v) k = some v := by
  induction m with
  | nil => simp [assocSet, assocGet]
  | cons e rest ih =>
    rcases e with ⟨k', v'⟩
    by_cases h : k' = k
    · simp [assocSet, assocGet, h]
    · simp [assocSet, assocGet, h, ih]

theorem assocGet_assocDel_self {α : Type} (m : List (String × α))
    (k : String) : assocGet (assocDel m k) k = none := by
  induction m with
  | nil => rfl
  | cons e rest ih =>
    rcases e with ⟨k', v'⟩
    by_cases h : k' = k
    · simpa [assocDel, List.filter_cons, h] using ih
    · simpa [assocDel, List.filter_cons, h, assocGet] using ih

theorem reconcileEmbedding_length (dims : Nat) (v : List Int) :
    (reconcileEmbedding dims v).length = dims := by
  unfold reconcileEmbedding
  split
  · assumption
  · split
    · simp; omega
    · simp; omega

theorem embedLoop_ok_length (env : Env) (text : String) (dims maxR : Nat) :
    ∀ fuel attempt le v n,
      embedLoop env text dims maxR fuel attempt le = (.ok v, n) →
      v.length = dims := by
  intro fuel
  induction fuel with
  | zero =>
    intro attempt le v n h
    simp [embedLoop] at h
  | succ f ih =>
    intro attempt le v n h
    unfold embedLoop at h
    split at h
    · split at h
      · simp only [Prod.mk.injEq] at h
        exact ih (attempt + 1) _ v _ (Prod.ext h.1 rfl) ▸ rfl
      · simp only [Prod.mk.injEq, Except.ok.injEq] at h
        rw [← h.1]
        exact reconcileEmbedding_length dims _
    · simp only [Prod.mk.injEq] at h
      exact ih (attempt + 1) _ v _ (Prod.ext h.1 rfl) ▸ rfl

theorem upsertPhase_frame (cfg : IndexerConfig) (env : Env)
    (s : IndexerState) (p checksum : String) (embedding : List Int)
    (ec : Nat) (r : Except String Unit) (s' : IndexerState)
    (cc : CallCounts)
    (h : doIndexFileUpsertPhase cfg env s p checksum embedding ec =
      (r, s', cc)) :
    s'.stats.failedFiles = s.stats.failedFiles ∧
    s'.stats.totalFiles = s.stats.totalFiles ∧
    s'.currentConcurrency = s.currentConcurrency := by
  unfold doIndexFileUpsertPhase at h
  cases hl : (upsertLoop env p
      (if cfg.qdrantRetries = 0 then 3 else cfg.qdrantRetries) 1
      none).lastError <;>
    simp only [hl, Prod.mk.injEq] at h
  · obtain ⟨-, h2, -⟩ := h
    subst h2
    exact ⟨rfl, rfl, rfl⟩
  · obtain ⟨-, h2, -⟩ := h
    subst h2
    exact ⟨rfl, rfl, rfl⟩

theorem upsertPhase_error_frame (cfg : IndexerConfig) (env : Env)
    (s : IndexerState) (p checksum : String) (embedding : List Int)
    (ec : Nat) (msg : String) (s' : IndexerState) (cc : CallCounts)
    (h : doIndexFileUpsertPhase cfg env s p checksum embedding ec =
      (.error msg, s', cc)) :
    s'.incrementalState = s.incrementalState ∧ s'.stats = s.stats := by
  unfold doIndexFileUpsertPhase at h
  cases hl : (upsertLoop env p
      (if cfg.qdrantRetries = 0 then 3 else cfg.qdrantRetries) 1
      none).lastError <;>
    simp only [hl, Prod.mk.injEq] at h
  · exact absurd h.1 (by simp)
  · obtain ⟨-, h2, -⟩ := h
    subst h2
    exact ⟨rfl, rfl⟩

theorem doIndexFileBody_frame (cfg : IndexerConfig) (env : Env)
    (s : IndexerState) (p : String) (r : Except String Unit)
    (s' : IndexerState) (cc : CallCounts)
    (h : doIndexFileBody cfg env s p = (r, s', cc)) :
    s'.stats.failedFiles = s.stats.failedFiles ∧
    s'.stats.totalFiles = s.stats.totalFiles ∧
    s'.currentConcurrency = s.currentConcurrency := by
  unfold doIndexFileBody at h
  split at h
  · simp only [Prod.mk.injEq] at h
    obtain ⟨-, h2, -⟩ := h
    subst h2
    exact ⟨rfl, rfl, rfl⟩
  split at h
  · simp only [Prod.mk.injEq] at h
    obtain ⟨-, h2, -⟩ := h
    subst h2
    exact ⟨rfl, rfl, rfl⟩
  split at h
  · simp only [Prod.mk.injEq] at h
    obtain ⟨-, h2, -⟩ := h
    subst h2
    exact ⟨rfl, rfl, rfl⟩
  · cases hg : generateEmbedding cfg env (env.contentOf p) with
    | mk er ec' =>
      cases er with
      | error m =>
        simp only [hg, Prod.mk.injEq] at h
        obtain ⟨-, h2, -⟩ := h
        subst h2
        exact ⟨rfl, rfl, rfl⟩
      | ok v =>
        simp only [hg] at h
        exact upsertPhase_frame _ _ _ _ _ _ _ _ _ _ h

theorem doIndexFileBody_error_frame (cfg : IndexerConfig) (env : Env)
    (s : IndexerState) (p : String) (msg : String) (s' : IndexerState)
    (cc : CallCounts)
    (h : doIndexFileBody cfg env s p = (.error msg, s', cc)) :
    s'.incrementalState = s.incrementalState ∧ s'.stats = s.stats := by
  unfold doIndexFileBody at h
  split at h
  · simp only [Prod.mk.injEq] at h
    obtain ⟨-, h2, -⟩ := h
    subst h2
    exact ⟨rfl, rfl⟩
  split at h
  · exact absurd (congrArg Prod.fst h) (by simp)
  split at h
  · exact absurd (congrArg Prod.fst h) (by simp)
  · cases hg : generateEmbedding cfg env (env.contentOf p) with
    | mk er ec' =>
      cases er with
      | error m =>
        simp only [hg, Prod.mk.injEq] at h
        obtain ⟨-, h2, -⟩ := h
        subst h2
        exact ⟨rfl, rfl⟩
      | ok v =>
        simp only [hg] at h
        exact upsertPhase_error_frame _ _ _ _ _ _ _ _ _ _ h

theorem temporalFresh_spec (pd : String → Option Int) (nowMs windowMs : Int)
    (c : Candidate) (h : temporalFresh pd nowMs windowMs c = true) :
    (c.createdAt.bind pd).isSome = true ∧
    (∀ e, c.expiresAt.bind pd = some e → nowMs ≤ e) ∧
    (∀ t, c.createdAt.bind pd = some t → nowMs - t ≤ windowMs) := by
  unfold temporalFresh at h
  cases hc : c.createdAt.bind pd with
  | none => rw [hc] at h; simp at h
  | some created =>
    rw [hc] at h
    have hfresh : nowMs - created ≤ windowMs := by
      rcases he : c.expiresAt.bind pd with _ | e
      · rw [he] at h
        simpa using h
      · rw [he] at h
        by_cases hlt : e < nowMs
        · simp [hlt] at h
        · simp [hlt] at h
          omega
    have hnotp : ∀ e, c.expiresAt.bind pd = some e → nowMs ≤ e := by
      intro e he
      rw [he] at h
      by_cases hlt : e < nowMs
      · simp [hlt] at h
      · omega
    refine ⟨by simp, hnotp, ?_⟩
    intro t ht
    injection ht with ht
    omega

/-- C2: every candidate returned by `search(query, limit)` satisfies the
three temporal conditions — parseable `createdAt`, `expiresAt` not in the
past, and age since creation within the configured freshness window —
and the result is exactly the first `limit` survivors of the temporal
filter applied to the store's similarity-ordered response, hence at most
`limit` of them. -/
theorem search_temporal_filter (cfg : IndexerConfig) (env : Env)
    (query : String) (limit : Nat) (res : List Candidate)
    (h : search cfg env query limit = .ok res) :
    (∀ c ∈ res,
      (c.createdAt.bind env.parseDate).isSome = true ∧
      (∀ e, c.expiresAt.bind env.parseDate = some e → env.nowMs ≤ e) ∧
      (∀ t, c.createdAt.bind env.parseDate = some t →
        env.nowMs - t ≤ freshnessWindowMs cfg)) ∧
    res = (env.rawResults.filter
      (temporalFresh env.parseDate env.nowMs (freshnessWindowMs cfg))).take
        limit ∧
    res.length ≤ limit := by
  have hres : res = (env.rawResults.filter
      (temporalFresh env.parseDate env.nowMs (freshnessWindowMs cfg))).take
        limit := by
    unfold search at h
    cases hv : (if cfg.validationEnabled then validateIndexState env
        else Except.ok ()) with
    | error m => rw [hv] at h; simp at h
    | ok u =>
      rw [hv] at h
      cases hg : (generateEmbedding cfg env query).1 with
      | error m => rw [hg] at h; simp at h
      | ok v =>
        rw [hg] at h
        simp only [Except.ok.injEq] at h
        exact h.symm
  refine ⟨?_, hres, ?_⟩
  · intro c hc
    rw [hres] at hc
    have hmem := List.mem_of_mem_take hc
    have hpred := (List.mem_filter.mp hmem).2
    exact temporalFresh_spec env.parseDate env.nowMs (freshnessWindowMs cfg)
      c hpred
  · rw [hres]
    simp [List.length_take]

/-- C3: when incremental mode is on and the stored record's
`lastModified` equals the file's current mtime, `indexFile` performs no
embedding call and no upsert call and returns successfully with the
engine state — FileRecord map included — exactly unchanged. -/
theorem indexFile_noop_when_unchanged (cfg : IndexerConfig) (env : Env)
    (s : IndexerState) (p : String) (rcd : FileRecord)
    (hinc : cfg.incrementalEnabled = true)
    (hex : env.fileExists p = true)
    (hnx : env.excluded p = false)
    (hstat : env.statOk p = true)
    (hrec : assocGet s.incrementalState p = some rcd)
    (hmt : rcd.lastModified = env.mtimeIso p) :
    doIndexFile cfg env s p = (.ok (), s, ⟨0, 0⟩) := by
  have hni : needsIndexing cfg env
      { s with currentConcurrency := s.currentConcurrency + 1 } p = false := by
    unfold needsIndexing
    simp [hinc, hstat, hrec, hmt]
  unfold doIndexFile doIndexFileBody
  simp [doIndexFileWrap, hex, hnx, hni]

/-- C4: for a path the exclusion matcher reports as excluded,
`indexFile` makes no embedding call and no upsert call and leaves both
the FileRecord map and the vector store untouched; when the file exists,
the exclusion branch returns success (no exception) with the state
exactly unchanged. -/
theorem indexFile_excluded_skip (cfg : IndexerConfig) (env : Env)
    (s : IndexerState) (p : String) (hx : env.excluded p = true) :
    (doIndexFile cfg env s p).2.2 = ⟨0, 0⟩ ∧
    (doIndexFile cfg env s p).2.1.incrementalState = s.incrementalState ∧
    (doIndexFile cfg env s p).2.1.store = s.store ∧
    (env.fileExists p = true →
      doIndexFile cfg env s p = (.ok (), s, ⟨0, 0⟩)) := by
  by_cases he : env.fileExists p
  · have hres : doIndexFile cfg env s p = (.ok (), s, ⟨0, 0⟩) := by
      unfold doIndexFile doIndexFileBody
      simp [doIndexFileWrap, he, hx]
    rw [hres]
    exact ⟨rfl, rfl, rfl, fun _ => rfl⟩
  · have hres : doIndexFile cfg env s p =
        (.error ("Failed to index file " ++ p ++ ": " ++
           ("File does not exist: " ++ p)),
         { s with stats :=
            { s.stats with failedFiles := s.stats.failedFiles + 1 } },
         ⟨0, 0⟩) := by
      unfold doIndexFile doIndexFileBody
      simp [doIndexFileWrap, he]
    rw [hres]
    exact ⟨rfl, rfl, rfl, fun hcon => absurd hcon he⟩

/-- C9: a vector returned by `generateEmbedding` always has exactly the
configured dimensionality: the reconciliation step truncates a longer
vector and zero-pads a shorter one instead of failing. -/
theorem generateEmbedding_dimension_reconciled (cfg : IndexerConfig)
    (env : Env) (text : String) (v : List Int)
    (h : (generateEmbedding cfg env text).1 = .ok v) :
    v.length = cfg.dimensions ∧
    (∀ w : List Int, w.length > cfg.dimensions →
      reconcileEmbedding cfg.dimensions w = w.take cfg.dimensions) ∧
    (∀ w : List Int, w.length < cfg.dimensions →
      reconcileEmbedding cfg.dimensions w =
        w ++ List.replicate (cfg.dimensions - w.length) 0) := by
  refine ⟨?_, ?_, ?_⟩
  · unfold generateEmbedding at h
    have hpair : embedLoop env text cfg.dimensions
        (if cfg.ollamaRetries = 0 then 2 else cfg.ollamaRetries)
        (if cfg.ollamaRetries = 0 then 2 else cfg.ollamaRetries) 1 none =
        (.ok v,
         (embedLoop env text cfg.dimensions
           (if cfg.ollamaRetries = 0 then 2 else cfg.ollamaRetries)
           (if cfg.ollamaRetries = 0 then 2 else cfg.ollamaRetries) 1
           none).2) := by
      rw [← h]
    exact embedLoop_ok_length env text cfg.dimensions _ _ _ _ v _ hpair
  · intro w hw
    unfold reconcileEmbedding
    rw [if_neg (by omega), if_pos hw]
  · intro w hw
    unfold reconcileEmbedding
    rw [if_neg (by omega), if_neg (by omega)]

/-- C10: when `indexFile` throws — missing file, embedding failure or
store failure — the FileRecord map is exactly unchanged, every stats
field except the failure counter is unchanged (the failure counter is
incremented once), and the concurrency slot is released. -/
theorem indexFile_error_frame (cfg : IndexerConfig) (env : Env)
    (s : IndexerState) (p : String) (msg : String)
    (h : (doIndexFile cfg env s p).1 = .error msg) :
    (doIndexFile cfg env s p).2.1.incrementalState = s.incrementalState ∧
    (doIndexFile cfg env s p).2.1.stats.failedFiles =
      s.stats.failedFiles + 1 ∧
    (doIndexFile cfg env s p).2.1.stats.indexedFiles =
      s.stats.indexedFiles ∧
    (doIndexFile cfg env s p).2.1.stats.indexedSize = s.stats.indexedSize ∧
    (doIndexFile cfg env s p).2.1.stats.totalFiles = s.stats.totalFiles ∧
    (doIndexFile cfg env s p).2.1.stats.totalSize = s.stats.totalSize ∧
    (doIndexFile cfg env s p).2.1.stats.lastIndexed =
      s.stats.lastIndexed ∧
    (doIndexFile cfg env s p).2.1.currentConcurrency =
      s.currentConcurrency := by
  rcases hb : doIndexFileBody cfg env
      { s with currentConcurrency := s.currentConcurrency + 1 } p with
    ⟨r, s2, cc⟩
  have hred : doIndexFile cfg env s p = doIndexFileWrap p (r, s2, cc) := by
    unfold doIndexFile
    rw [hb]
  cases r with
  | ok u =>
    rw [hred] at h
    simp [doIndexFileWrap] at h
  | error m =>
    have hfr := doIndexFileBody_error_frame cfg env _ p m s2 cc hb
    have hcc := (doIndexFileBody_frame cfg env _ p _ s2 cc hb).2.2
    rw [hred]
    simp only [doIndexFileWrap]
    refine ⟨hfr.1, ?_, ?_, ?_, ?_, ?_, ?_, ?_⟩ <;>
      simp [hfr.2, hcc]

/-- C6: the admission-gate counter never exceeds the configured maximum
under any interleaving of slot acquisitions and releases, and every
`doIndexFile` execution releases its slot on every exit path — the
counter after the call equals the counter before it, on success and on
exception alike. -/
theorem concurrency_bound_and_release (maxC c : Nat)
    (h : SlotReachable maxC c) (cfg : IndexerConfig) (env : Env)
    (s : IndexerState) (p : String) :
    c ≤ maxC ∧
    (doIndexFile cfg env s p).2.1.currentConcurrency =
      s.currentConcurrency := by
  constructor
  · induction h with
    | init => exact Nat.zero_le _
    | step hr hs ih =>
      cases hs with
      | acquire hlt => omega
      | release => omega
  · rcases hb : doIndexFileBody cfg env
        { s with currentConcurrency := s.currentConcurrency + 1 } p with
      ⟨r, s2, cc⟩
    have hcc := (doIndexFileBody_frame cfg env _ p _ s2 cc hb).2.2
    unfold doIndexFile
    rw [hb]
    cases r <;> simp [doIndexFileWrap, hcc]

/-- C7: a second `indexFile(p)` call arriving while a first call on `p`
is still in flight receives the very operation the first call
registered — no new operation is started and the in-flight map is left
as it is, so both callers await the same single embed+upsert sequence
and observe its one outcome. -/
theorem indexFile_inflight_dedup (q0 q1 : List (String × Nat))
    (p : String) (n m op1 : Nat)
    (h1 : indexFileAdmit q0 n p = (op1, q1, true)) :
    indexFileAdmit q1 m p = (op1, q1, false) := by
  unfold indexFileAdmit at h1 ⊢
  cases hg : assocGet q0 p with
  | some op =>
    rw [hg] at h1
    simp at h1
  | none =>
    rw [hg] at h1
    simp only [Prod.mk.injEq] at h1
    obtain ⟨hop, hq, -⟩ := h1
    subst hop
    subst hq
    simp [assocGet]

theorem doIndexFile_failedFiles_delta (cfg : IndexerConfig) (env : Env)
    (s : IndexerState) (p : String) :
    (doIndexFile cfg env s p).2.1.stats.failedFiles =
      s.stats.failedFiles +
        (match (doIndexFile cfg env s p).1 with
          | .ok _ => 0
          | .error _ => 1) := by
  rcases hb : doIndexFileBody cfg env
      { s with currentConcurrency := s.currentConcurrency + 1 } p with
    ⟨r, s2, cc⟩
  have hff := (doIndexFileBody_frame cfg env _ p _ s2 cc hb).1
  unfold doIndexFile
  rw [hb]
  cases r <;> simp [doIndexFileWrap, hff]

theorem doIndexFile_totalFiles (cfg : IndexerConfig) (env : Env)
    (s : IndexerState) (p : String) :
    (doIndexFile cfg env s p).2.1.stats.totalFiles =
      s.stats.totalFiles := by
  rcases hb : doIndexFileBody cfg env
      { s with currentConcurrency := s.currentConcurrency + 1 } p with
    ⟨r, s2, cc⟩
  have htf := (doIndexFileBody_frame cfg env _ p _ s2 cc hb).2.1
  unfold doIndexFile
  rw [hb]
  cases r <;> simp [doIndexFileWrap, htf]

theorem indexFilesGo_spec (cfg : IndexerConfig) (env : Env) :
    ∀ (paths : List String) (s : IndexerState),
      (∀ q : String,
        paths.count q =
          (indexFilesGo cfg env paths s).1.count q +
          (indexFilesGo cfg env paths s).2.1.count q) ∧
      (indexFilesGo cfg env paths s).2.2.stats.failedFiles =
        s.stats.failedFiles + (indexFilesGo cfg env paths s).2.1.length ∧
      (indexFilesGo cfg env paths s).2.2.stats.totalFiles =
        s.stats.totalFiles := by
  intro paths
  induction paths with
  | nil =>
    intro s
    exact ⟨fun q => by simp [indexFilesGo], by simp [indexFilesGo],
      by simp [indexFilesGo]⟩
  | cons p rest ih =>
    intro s
    rcases ho : doIndexFile cfg env s p with ⟨r, s', cc⟩
    have hdelta := doIndexFile_failedFiles_delta cfg env s p
    have htf := doIndexFile_totalFiles cfg env s p
    rw [ho] at hdelta htf
    obtain ⟨ihc, ihf, ihtf⟩ := ih s'
    cases r with
    | ok u =>
      refine ⟨?_, ?_, ?_⟩
      · intro q
        have hq := ihc q
        simp only [indexFilesGo, ho, List.count_cons]
        cases hqp : q == p <;> simp [hqp, hq] <;> omega
      · simp only [indexFilesGo, ho]
        simp at hdelta
        simp [ihf, hdelta]
      · simp only [indexFilesGo, ho]
        simp at htf
        simp [ihtf, htf]
    | error m =>
      refine ⟨?_, ?_, ?_⟩
      · intro q
        have hq := ihc q
        simp only [indexFilesGo, ho, List.count_cons]
        cases hqp : q == p <;> simp [hqp, hq] <;> omega
      · simp only [indexFilesGo, ho]
        simp at hdelta
        simp [ihf, hdelta]
        omega
      · simp only [indexFilesGo, ho]
        simp at htf
        simp [ihtf, htf]

/-- C5: `indexFiles` partitions its input — every input path lands in
exactly one of the successful and failed result lists (stated per-path
by occurrence count, so duplicates are accounted for) — an individual
file's failure is caught inside the per-file loop and never escapes
(the model is a total function into the two lists), the batch-reset
stats report `failedFiles` equal to the number of failed paths (so a
batch with exactly one failing file reports `failedFiles = 1`), and
`totalFiles` equal to the batch size. -/
theorem indexFiles_partition (cfg : IndexerConfig) (env : Env)
    (paths : List String) (s : IndexerState) (q : String) :
    paths.count q =
      (indexFiles cfg env paths s).1.count q +
      (indexFiles cfg env paths s).2.1.count q ∧
    (indexFiles cfg env paths s).2.2.stats.failedFiles =
      (indexFiles cfg env paths s).2.1.length ∧
    (indexFiles cfg env paths s).2.2.stats.totalFiles = paths.length := by
  unfold indexFiles
  obtain ⟨hc, hf, htf⟩ := indexFilesGo_spec cfg env paths
    { s with stats :=
      { s.stats with
          totalFiles := paths.length
          indexedFiles := 0
          failedFiles := 0
          totalSize := batchTotalSize env paths
          indexedSize := 0 } }
  exact ⟨hc q, by simpa using hf, by simpa using htf⟩

theorem retryCeil_pos (n d : Nat) (hd : 0 < d) :
    ∃ k, (if n = 0 then d else n) = k + 1 := by
  cases n with
  | zero => exact ⟨d - 1, by simp; omega⟩
  | succ k => exact ⟨k, by simp⟩

/-- C8: the vector-store identifier is computed by `generateFileId` from
the path alone — the function consults no engine state — so after
`deleteFileFromIndex(p)` removed the entry that lived under that
identifier, a successful `indexFile(p)` re-creates a vector entry under
the very same identifier and re-creates a FileRecord for `p`. -/
theorem delete_then_index_roundtrip (cfg : IndexerConfig) (env : Env)
    (s : IndexerState) (p : String) (pt : VectorPoint) (v : List Int)
    (hprev : assocGet s.store (generateFileId env.md5hex p) = some pt)
    (hex : env.fileExists p = true)
    (hnx : env.excluded p = false)
    (hemb : env.embedAttempt (env.contentOf p) 1 = .ok v)
    (hv : v ≠ [])
    (hup : env.upsertAttempt p 1 = none) :
    (doIndexFile cfg env (deleteFileFromIndex env s p) p).1 = .ok () ∧
    assocGet (doIndexFile cfg env (deleteFileFromIndex env s p) p).2.1.store
        (generateFileId env.md5hex p) =
      some ⟨reconcileEmbedding cfg.dimensions v,
        buildMetadata env p (env.sha256hex (env.contentOf p))⟩ ∧
    (assocGet (doIndexFile cfg env
        (deleteFileFromIndex env s p) p).2.1.incrementalState p).isSome =
      true := by
  have hni : needsIndexing cfg env
      { incrementalState := (deleteFileFromIndex env s p).incrementalState
        stats := (deleteFileFromIndex env s p).stats
        currentConcurrency :=
          (deleteFileFromIndex env s p).currentConcurrency + 1
        store := (deleteFileFromIndex env s p).store } p = true := by
    unfold needsIndexing
    by_cases h1 : cfg.incrementalEnabled
    · by_cases h2 : env.statOk p
      · simp [h1, h2, deleteFileFromIndex, assocGet_assocDel_self]
      · simp [h1, h2]
    · simp [h1]
  have hemb' : generateEmbedding cfg env (env.contentOf p) =
      (.ok (reconcileEmbedding cfg.dimensions v), 1) := by
    unfold generateEmbedding
    obtain ⟨k, hk⟩ := retryCeil_pos cfg.ollamaRetries 2 (by omega)
    rw [hk]
    unfold embedLoop
    rw [hemb]
    simp [hv]
  have hups : upsertLoop env p
      (if cfg.qdrantRetries = 0 then 3 else cfg.qdrantRetries) 1 none =
      ⟨none, true, 1⟩ := by
    obtain ⟨k, hk⟩ := retryCeil_pos cfg.qdrantRetries 3 (by omega)
    rw [hk]
    unfold upsertLoop
    rw [hup]
  refine ⟨?_, ?_, ?_⟩ <;>
  · unfold doIndexFile doIndexFileBody
    rw [hemb']
    simp only [doIndexFileUpsertPhase, hups]
    simp [hex, hnx, hni, doIndexFileWrap, assocGet_assocSet_self]

/-- C1 (divergence witness): with the source's default retry ceiling of
3, an environment whose first Qdrant upsert attempt fails transiently
and whose second attempt succeeds — the store demonstrably holds the
point afterwards and two upsert calls were made — still makes
`indexFile` throw "Failed to persist to Qdrant after 3 attempts" and
skip the FileRecord write, because the retry loop never resets
`lastError` after a failed attempt and the post-loop
`if (lastError) throw` fires even though the retry succeeded. -/
theorem qdrant_retry_lasterror_bug :
    (doIndexFile testCfg c1Env emptyState "a.ts").1 =
      .error ("Failed to index file a.ts: " ++
        "Failed to persist to Qdrant after 3 attempts: transient failure") ∧
    assocGet (doIndexFile testCfg c1Env emptyState "a.ts").2.1.store
        (generateFileId c1Env.md5hex "a.ts") =
      some ⟨[1, 2],
        buildMetadata c1Env "a.ts"
          (c1Env.sha256hex (c1Env.contentOf "a.ts"))⟩ ∧
    assocGet (doIndexFile testCfg c1Env emptyState
        "a.ts").2.1.incrementalState "a.ts" = none ∧
    (doIndexFile testCfg c1Env emptyState "a.ts").2.2.upsertCalls = 2 :=
  ⟨rfl, rfl, rfl, rfl⟩

/-! ## Concrete witnesses -/

/-- Witness for C2 at a concrete query: with one fresh, one expired and
one unparseable candidate in the store's response, the result is the
fresh candidate alone. -/
theorem search_temporal_filter_witness :
    [c2Fresh] = (c2Env.rawResults.filter
      (temporalFresh c2Env.parseDate c2Env.nowMs
        (freshnessWindowMs testCfg))).take 1 :=
  (search_temporal_filter testCfg c2Env "query" 1 [c2Fresh] rfl).2.1

/-- Witness for C3: re-indexing "a.ts" with its record's `lastModified`
matching the current mtime is a skip with zero external calls. -/
theorem indexFile_noop_witness :
    doIndexFile testCfg testEnv c3State "a.ts" = (.ok (), c3State, ⟨0, 0⟩) :=
  indexFile_noop_when_unchanged testCfg testEnv c3State "a.ts" c3Record
    rfl rfl rfl rfl rfl rfl

/-- Witness for C4: an excluded path is skipped without external calls,
state change, or error. -/
theorem indexFile_excluded_skip_witness :
    (doIndexFile testCfg c4Env emptyState "a.ts").2.2 = ⟨0, 0⟩ ∧
    (doIndexFile testCfg c4Env emptyState "a.ts").2.1.incrementalState =
      emptyState.incrementalState ∧
    (doIndexFile testCfg c4Env emptyState "a.ts").2.1.store =
      emptyState.store ∧
    (c4Env.fileExists "a.ts" = true →
      doIndexFile testCfg c4Env emptyState "a.ts" =
        (.ok (), emptyState, ⟨0, 0⟩)) :=
  indexFile_excluded_skip testCfg c4Env emptyState "a.ts" rfl

/-- Witness for C6: counter 1 is reachable with maximum 2 and stays
within the bound; a concrete `doIndexFile` run restores the counter. -/
theorem concurrency_bound_witness :
    1 ≤ 2 ∧
    (doIndexFile testCfg testEnv emptyState "a.ts").2.1.currentConcurrency =
      emptyState.currentConcurrency :=
  concurrency_bound_and_release 2 1
    (SlotReachable.step SlotReachable.init (SlotStep.acquire (by decide)))
    testCfg testEnv emptyState "a.ts"

/-- Witness for C7: with an operation for "a.ts" in flight, a second
admission returns that operation and starts nothing. -/
theorem inflight_dedup_witness :
    indexFileAdmit [("a.ts", 0)] 1 "a.ts" = (0, [("a.ts", 0)], false) :=
  indexFile_inflight_dedup [] [("a.ts", 0)] "a.ts" 0 1 0 rfl

/-- Witness for C8: deleting "a.ts" and successfully re-indexing it
re-creates the point under the same deterministic identifier and a
FileRecord for the path. -/
theorem roundtrip_witness :
    (doIndexFile testCfg testEnv
      (deleteFileFromIndex testEnv c8State "a.ts") "a.ts").1 = .ok () ∧
    assocGet (doIndexFile testCfg testEnv
        (deleteFileFromIndex testEnv c8State "a.ts") "a.ts").2.1.store
        (generateFileId testEnv.md5hex "a.ts") =
      some ⟨reconcileEmbedding testCfg.dimensions [1, 2],
        buildMetadata testEnv "a.ts"
          (testEnv.sha256hex (testEnv.contentOf "a.ts"))⟩ ∧
    (assocGet (doIndexFile testCfg testEnv
        (deleteFileFromIndex testEnv c8State "a.ts")
        "a.ts").2.1.incrementalState "a.ts").isSome = true :=
  delete_then_index_roundtrip testCfg testEnv c8State "a.ts" c8Point [1, 2]
    rfl rfl rfl rfl (by decide) rfl

/-- Witness for C9: a 3-dimensional response against a configured
dimensionality of 2 comes back truncated to length 2. -/
theorem dimension_reconciled_witness :
    ([5, 6] : List Int).length = testCfg.dimensions ∧
    (∀ w : List Int, w.length > testCfg.dimensions →
      reconcileEmbedding testCfg.dimensions w =
        w.take testCfg.dimensions) ∧
    (∀ w : List Int, w.length < testCfg.dimensions →
      reconcileEmbedding testCfg.dimensions w =
        w ++ List.replicate (testCfg.dimensions - w.length) 0) :=
  generateEmbedding_dimension_reconciled testCfg c9Env "text" [5, 6] rfl

/-- Witness for C10: indexing a missing file throws, leaves the record
map untouched, bumps only the failure counter, and releases the slot. -/
theorem error_frame_witness :
    (doIndexFile testCfg c10Env emptyState "a.ts").2.1.incrementalState =
      emptyState.incrementalState ∧
    (doIndexFile testCfg c10Env emptyState "a.ts").2.1.stats.failedFiles =
      emptyState.stats.failedFiles + 1 ∧
    (doIndexFile testCfg c10Env emptyState "a.ts").2.1.stats.indexedFiles =
      emptyState.stats.indexedFiles ∧
    (doIndexFile testCfg c10Env emptyState "a.ts").2.1.stats.indexedSize =
      emptyState.stats.indexedSize ∧
    (doIndexFile testCfg c10Env emptyState "a.ts").2.1.stats.totalFiles =
      emptyState.stats.totalFiles ∧
    (doIndexFile testCfg c10Env emptyState "a.ts").2.1.stats.totalSize =
      emptyState.stats.totalSize ∧
    (doIndexFile testCfg c10Env emptyState "a.ts").2.1.stats.lastIndexed =
      emptyState.stats.lastIndexed ∧
    (doIndexFile testCfg c10Env emptyState "a.ts").2.1.currentConcurrency =
      emptyState.currentConcurrency :=
  indexFile_error_frame testCfg c10Env emptyState "a.ts"
    "Failed to index file a.ts: File does not exist: a.ts" rfl

end CodeIndexer
